import Mathlib

/-!
Shallow embedding of the StudentOS scoring engine (`src/engine.py`) in Lean 4.

Python `float` values are modelled as exact rationals (`ℚ`); Python's
`round(x, 2)` (round-half-to-even on the scaled value) is modelled by
`Engine.round2`.  Calendar dates are modelled by `Engine.CalDate`
(proleptic Gregorian, like Python's `datetime.date`); date subtraction
`(due - today).days` is ordinal subtraction, exactly as in CPython.
-/

namespace Engine

/-- Round a rational to the nearest integer, ties to even — the rounding
mode of Python's built-in `round`. -/
def roundHalfEven (q : ℚ) : ℤ :=
if q - ⌊q⌋ < 1/2 then ⌊q⌋
else if 1/2 < q - ⌊q⌋ then ⌊q⌋ + 1
else if ⌊q⌋ % 2 = 0 then ⌊q⌋ else ⌊q⌋ + 1

/-- Python's `round(x, 2)`: round to two decimal places, ties to even. -/
def round2 (q : ℚ) : ℚ := (roundHalfEven (100 * q) : ℚ) / 100

/-- `clamp` from `src/engine.py`: `max(lo, min(hi, value))`. -/
def clamp (value lo hi : ℚ) : ℚ := max lo (min hi value)

/-- Proleptic Gregorian calendar date, the model of Python's
`datetime.date` (whose year range is 1–9999). -/
structure CalDate where
year : ℕ
month : ℕ
day : ℕ
deriving DecidableEq, Repr

/-- Gregorian leap-year rule (as in CPython's `datetime`). -/
def isLeap (y : ℕ) : Bool := (y % 4 == 0 && y % 100 != 0) || y % 400 == 0

/-- Number of days in a month of a given year. -/
def daysInMonth (y m : ℕ) : ℕ :=
if m = 2 then (if isLeap y then 29 else 28)
else if m = 4 ∨ m = 6 ∨ m = 9 ∨ m = 11 then 30
else 31

/-- Validity of a calendar date, within Python's `date` year range. -/
def validDate (y m d : ℕ) : Bool :=
1 ≤ y && y ≤ 9999 && 1 ≤ m && m ≤ 12 && 1 ≤ d && d ≤ daysInMonth y m

/-- A `CalDate` is valid when its fields form a real calendar date. -/
def CalDate.Valid (d : CalDate) : Prop := validDate d.year d.month d.day = true

instance (d : CalDate) : Decidable d.Valid := by
unfold CalDate.Valid; infer_instance

/-- Days in the months strictly before month `m` of year `y`. -/
def daysBeforeMonth (y m : ℕ) : ℕ :=
(match m with
 | 1 => 0 | 2 => 31 | 3 => 59 | 4 => 90 | 5 => 120 | 6 => 151
 | 7 => 181 | 8 => 212 | 9 => 243 | 10 => 273 | 11 => 304 | _ => 334)
+ (if 3 ≤ m ∧ isLeap y then 1 else 0)

/-- `date.toordinal()`: day number with 0001-01-01 ↦ 1 (proleptic
Gregorian), exactly CPython's ordinal. -/
def CalDate.toOrdinal (d : CalDate) : ℤ :=
365 * ((d.year : ℤ) - 1) + ((d.year : ℤ) - 1) / 4 - ((d.year : ℤ) - 1) / 100
  + ((d.year : ℤ) - 1) / 400 + (daysBeforeMonth d.year d.month : ℤ) + (d.day : ℤ)

/-- The `Assignment` dataclass of `src/engine.py`.  `float` fields are
rationals, `confidence` is an integer, `due_date` a calendar date. -/
structure Assignment where
name : String
weight_percent : ℚ
due_date : CalDate
confidence : ℤ
estimated_hours : ℚ
deriving DecidableEq, Repr

/-- `days_until(due, today) = (due - today).days`: ordinal difference. -/
def days_until (due today : CalDate) : ℤ := due.toOrdinal - today.toOrdinal

/-- Result of `calc_risk` (the dict it returns, with its fields typed). -/
structure RiskResult where
name : String
days_left : ℤ
risk_score : ℚ
risk_label : String
deriving DecidableEq, Repr

/-- The label branch of `calc_risk`: `risk < 3.5 → "Low"`,
`risk < 5.5 → "Medium"`, else `"High"`. -/
def risk_label_of (risk : ℚ) : String :=
if risk < 3.5 then "Low" else if risk < 5.5 then "Medium" else "High"

/-- The "soon" urgency bucket of `calc_risk`. -/
def soon_bucket (dleft : ℤ) : ℚ :=
if dleft ≤ 1 then 10 else if dleft ≤ 3 then 8
else if dleft ≤ 7 then 6 else if dleft ≤ 14 then 4 else 2

/-- `calc_risk` from `src/engine.py`. -/
def calc_risk (a : Assignment) (today : CalDate) : RiskResult :=
let dleft := days_until a.due_date today
let soon := soon_bucket dleft
let doubt := 6 - clamp (a.confidence : ℚ) 1 5
let weight_scaled := clamp a.weight_percent 0 100 / 10
let risk := 0.4 * soon + 0.4 * weight_scaled + 0.2 * doubt
{ name := a.name
  days_left := dleft
  risk_score := round2 risk
  risk_label := risk_label_of risk }

/-- `urgency_zone` from `src/engine.py`. -/
def urgency_zone (hours_per_day : ℚ) : String :=
if hours_per_day ≤ 1 then "Safe"
else if hours_per_day ≤ 2.5 then "Steady"
else if hours_per_day ≤ 4 then "Crunch Zone"
else "Panic Zone"

/-- Result of `calc_urgency`.  The Python dict's `hours_per_day` is
`None` on the overdue branch, modelled as `Option ℚ`. -/
structure UrgencyResult where
name : String
start_delay_days : ℤ
days_left_after_delay : ℤ
hours_per_day : Option ℚ
zone : String
deriving DecidableEq, Repr

/-- `calc_urgency` from `src/engine.py` (the `start_delay_days`
parameter defaults to 0 in Python; here it is passed explicitly). -/
def calc_urgency (a : Assignment) (today : CalDate) (start_delay_days : ℤ) :
    UrgencyResult :=
let dleft_after_delay := days_until a.due_date today - start_delay_days
if dleft_after_delay < 0 then
  { name := a.name
    start_delay_days := start_delay_days
    days_left_after_delay := dleft_after_delay
    hours_per_day := none
    zone := "Overdue" }
else
  let effective_days := max 1 dleft_after_delay
  let hours_day := a.estimated_hours / (effective_days : ℚ)
  { name := a.name
    start_delay_days := start_delay_days
    days_left_after_delay := dleft_after_delay
    hours_per_day := some (round2 hours_day)
    zone := urgency_zone hours_day }

/-- The `urgency_scaled` branch of `danger_score`: `10.0` when
`hours_per_day` is the `None` sentinel, else `min(5.0, h) * 2.0`. -/
def urgency_scaled_of (hours_per_day : Option ℚ) : ℚ :=
match hours_per_day with
| none => 10
| some h => min 5 h * 2

/-- The final blend of `danger_score`:
`round(0.7 * risk + 0.3 * urgency_scaled, 2)`. -/
def danger_combine (risk urgency_scaled : ℚ) : ℚ :=
round2 (0.7 * risk + 0.3 * urgency_scaled)

/-- `danger_score` from `src/engine.py`. -/
def danger_score (a : Assignment) (today : CalDate) : ℚ :=
danger_combine (calc_risk a today).risk_score
  (urgency_scaled_of (calc_urgency a today 0).hours_per_day)

/-- One record of the `rank_assignments_by_danger` output list. -/
structure DangerRecord where
name : String
risk_score : ℚ
risk_label : String
hours_per_day : Option ℚ
zone : String
danger_score : ℚ
deriving DecidableEq, Repr

/-- The record built for one assignment inside
`rank_assignments_by_danger`. -/
def danger_record (a : Assignment) (today : CalDate) : DangerRecord :=
let r := calc_risk a today
let u := calc_urgency a today 0
{ name := a.name
  risk_score := r.risk_score
  risk_label := r.risk_label
  hours_per_day := u.hours_per_day
  zone := u.zone
  danger_score := danger_score a today }

/-- The ordering used by `results.sort(key=danger_score, reverse=True)`:
descending by `danger_score`. -/
def dangerGE (x y : DangerRecord) : Prop := y.danger_score ≤ x.danger_score

instance : DecidableRel dangerGE :=
fun x y => inferInstanceAs (Decidable (y.danger_score ≤ x.danger_score))

instance : IsTotal DangerRecord dangerGE :=
⟨fun x y => le_total y.danger_score x.danger_score⟩

instance : IsTrans DangerRecord dangerGE :=
⟨fun _ _ _ h h' => le_trans h' h⟩

/-- `rank_assignments_by_danger` from `src/engine.py`: build one record
per assignment, then sort descending by `danger_score`.  Python's
`list.sort` is a stable sort; `List.insertionSort` with the non-strict
descending order is extensionally the same stable descending sort. -/
def rank_assignments_by_danger (assignments : List Assignment)
    (today : CalDate) : List DangerRecord :=
List.insertionSort dangerGE (assignments.map (fun a => danger_record a today))

/-- Result of `start_by_date`.  The Python dict also carries the start
date as an ISO string and a message; here the start date is kept as its
ordinal (`start_by_ordinal`), the presentation strings are omitted. -/
structure StartByResult where
name : String
start_by_days : ℤ
start_by_ordinal : ℤ
deriving DecidableEq, Repr

/-- `start_by_date` from `src/engine.py`: if already at or past the
deadline, start immediately; else scan `delay = 0 .. total_days_left`
and return `max(0, delay - 1)` at the first delay whose required pace
exceeds `crunch_threshold`; if none does, start by the due date. -/
def start_by_date (a : Assignment) (today : CalDate) (crunch_threshold : ℚ) :
    StartByResult :=
let total_days_left := days_until a.due_date today
if total_days_left ≤ 0 then
  { name := a.name, start_by_days := 0, start_by_ordinal := today.toOrdinal }
else
  match (List.range (total_days_left.toNat + 1)).find?
      (fun delay =>
        crunch_threshold <
          a.estimated_hours / ((max 1 (total_days_left - (delay : ℤ))) : ℚ)) with
  | some delay =>
    let safe_delay : ℤ := max 0 ((delay : ℤ) - 1)
    { name := a.name
      start_by_days := safe_delay
      start_by_ordinal := today.toOrdinal + safe_delay }
  | none =>
    { name := a.name
      start_by_days := total_days_left
      start_by_ordinal := a.due_date.toOrdinal }

/-- One breakdown entry of a `workload_projection` day (the assignment's
`due_date` ISO string is kept as its ordinal). -/
structure BreakdownEntry where
name : String
daily_hours : ℚ
due_ordinal : ℤ
deriving DecidableEq, Repr

/-- One day of the `workload_projection` output (the day's ISO date
string is kept as its ordinal). -/
structure WorkloadDay where
date_ordinal : ℤ
total_hours : ℚ
breakdown : List BreakdownEntry
deriving DecidableEq, Repr

/-- The inner accumulation step of `workload_projection` for one
assignment on the day `today + i`: skip it when overdue from that day,
else add its even daily pace to the running total and append its
breakdown entry.  `days_until(a.due_date, today + timedelta(days=i))`
equals `days_until(a.due_date, today) - i`, since Python date
arithmetic is ordinal arithmetic. -/
def workload_step (today : CalDate) (i : ℕ) (acc : ℚ × List BreakdownEntry)
    (a : Assignment) : ℚ × List BreakdownEntry :=
let dleft := days_until a.due_date today - (i : ℤ)
if dleft < 0 then acc
else
  let effective_days := max 1 dleft
  let daily_hours := a.estimated_hours / (effective_days : ℚ)
  (acc.1 + daily_hours,
   acc.2 ++ [{ name := a.name
               daily_hours := round2 daily_hours
               due_ordinal := a.due_date.toOrdinal }])

/-- `workload_projection` from `src/engine.py`. -/
def workload_projection (assignments : List Assignment) (today : CalDate)
    (days : ℕ) : List WorkloadDay :=
(List.range days).map (fun i =>
  let acc := assignments.foldl (workload_step today i) (0, [])
  { date_ordinal := today.toOrdinal + (i : ℤ)
    total_hours := round2 acc.1
    breakdown := acc.2 })

/-- `expected_score_from_confidence` from `src/engine.py`: the fixed
confidence → expected score table, defaulting to 83. -/
def expected_score_from_confidence (confidence : ℤ) : ℚ :=
if confidence = 1 then 65
else if confidence = 2 then 75
else if confidence = 3 then 83
else if confidence = 4 then 90
else if confidence = 5 then 96
else 83

/-- `projected_grade_after_assignment` from `src/engine.py`. -/
def projected_grade_after_assignment (current_grade weight_percent
    assignment_score : ℚ) : ℚ :=
let w := clamp (weight_percent / 100) 0 1
let cg := clamp current_grade 0 100
let s := clamp assignment_score 0 100
round2 (cg * (1 - w) + s * w)

/-- Result of `gpa_impact_estimate` (the formatted `message` string is
omitted as presentation). -/
structure GpaImpact where
name : String
current_grade : ℚ
weight_percent : ℚ
predicted_score : ℚ
projected_grade : ℚ
delta_points : ℚ
severity : String
drop_risk : Bool
deriving DecidableEq, Repr

/-- `gpa_impact_estimate` from `src/engine.py` (`predicted_score = None`
in Python is the `none` case of the option argument). -/
def gpa_impact_estimate (a : Assignment) (current_grade : ℚ)
    (predicted_score : Option ℚ) : GpaImpact :=
let ps := predicted_score.getD (expected_score_from_confidence a.confidence)
let new_grade := projected_grade_after_assignment current_grade a.weight_percent ps
let delta := round2 (new_grade - current_grade)
let drop_risk := decide (20 ≤ a.weight_percent) && decide (a.confidence ≤ 2)
let mag := |delta|
let severity :=
  if mag < 0.5 then "Tiny" else if mag < 1.5 then "Noticeable" else "Big"
{ name := a.name
  current_grade := round2 current_grade
  weight_percent := a.weight_percent
  predicted_score := round2 ps
  projected_grade := new_grade
  delta_points := delta
  severity := severity
  drop_risk := drop_risk }

/-- The last two decimal digits of `n`, as characters (`"%02d"` for
numbers below 100). -/
def pad2 (n : ℕ) : List Char :=
[Nat.digitChar (n / 10 % 10), Nat.digitChar (n % 10)]

/-- The last four decimal digits of `n`, as characters (`"%04d"` for
numbers below 10000). -/
def pad4 (n : ℕ) : List Char :=
[Nat.digitChar (n / 1000 % 10), Nat.digitChar (n / 100 % 10),
 Nat.digitChar (n / 10 % 10), Nat.digitChar (n % 10)]

/-- `date.isoformat()`: the fixed-width `"YYYY-MM-DD"` rendering of a
date (Python formats with `"%04d-%02d-%02d"`). -/
def CalDate.isoformat (d : CalDate) : String :=
String.mk (pad4 d.year ++ '-' :: (pad2 d.month ++ '-' :: pad2 d.day))

/-- The numeric value of a decimal digit character, or `none`. -/
def digitVal? (c : Char) : Option ℕ :=
if '0' ≤ c ∧ c ≤ '9' then some (c.toNat - 48) else none

/-- `parse_date` from `src/engine.py`
(`datetime.strptime(s, "%Y-%m-%d").date()`), modelled on the
fixed-width `"YYYY-MM-DD"` form that `isoformat` emits; the parse fails
(Python raises `ValueError`, modelled as `none`) on a malformed string
or a non-existent calendar date. -/
def parse_date (s : String) : Option CalDate :=
match s.data with
| [y1, y2, y3, y4, s1, m1, m2, s2, d1, d2] =>
  if s1 = '-' ∧ s2 = '-' then
    do
      let a ← digitVal? y1
      let b ← digitVal? y2
      let c ← digitVal? y3
      let d ← digitVal? y4
      let e ← digitVal? m1
      let f ← digitVal? m2
      let g ← digitVal? d1
      let h ← digitVal? d2
      let y := 1000 * a + 100 * b + 10 * c + d
      let m := 10 * e + f
      let dd := 10 * g + h
      if validDate y m dd then some ⟨y, m, dd⟩ else none
  else none
| _ => none

/-- The dict produced by `assignment_to_dict`, with its fields typed as
the values the source stores there (`due_date` is the ISO string). -/
structure AssignmentDict where
name : String
weight_percent : ℚ
due_date : String
confidence : ℤ
estimated_hours : ℚ
deriving DecidableEq, Repr

/-- `assignment_to_dict` from `src/engine.py`. -/
def assignment_to_dict (a : Assignment) : AssignmentDict :=
{ name := a.name
  weight_percent := a.weight_percent
  due_date := a.due_date.isoformat
  confidence := a.confidence
  estimated_hours := a.estimated_hours }

/-- `assignment_from_dict` from `src/engine.py`.  On the typed dict the
`str` / `float` / `int` coercions of the source are identities; the date
parse can fail, so the result is an option. -/
def assignment_from_dict (d : AssignmentDict) : Option Assignment :=
(parse_date d.due_date).map (fun dt =>
  { name := d.name
    weight_percent := d.weight_percent
    due_date := dt
    confidence := d.confidence
    estimated_hours := d.estimated_hours })

/-! ### Lemmas about rounding -/

theorem floor_le_roundHalfEven (q : ℚ) : ⌊q⌋ ≤ roundHalfEven q := by
unfold roundHalfEven
split_ifs <;> omega

theorem roundHalfEven_le_floor_add_one (q : ℚ) : roundHalfEven q ≤ ⌊q⌋ + 1 := by
unfold roundHalfEven
split_ifs <;> omega

theorem roundHalfEven_mono {x y : ℚ} (h : x ≤ y) :
    roundHalfEven x ≤ roundHalfEven y := by
have hf : ⌊x⌋ ≤ ⌊y⌋ := Int.floor_mono h
rcases eq_or_lt_of_le hf with heq | hlt
· unfold roundHalfEven
  rw [← heq]
  have hxy : x - ⌊x⌋ ≤ y - ⌊x⌋ := by linarith
  split_ifs <;> first | omega | linarith
· have h1 := roundHalfEven_le_floor_add_one x
  have h2 := floor_le_roundHalfEven y
  omega

theorem round2_mono {x y : ℚ} (h : x ≤ y) : round2 x ≤ round2 y := by
unfold round2
have hm : roundHalfEven (100 * x) ≤ roundHalfEven (100 * y) :=
  roundHalfEven_mono (by linarith)
have : ((roundHalfEven (100 * x) : ℤ) : ℚ) ≤ ((roundHalfEven (100 * y) : ℤ) : ℚ) := by
  exact_mod_cast hm
linarith

theorem round2_bounds {lo hi q : ℚ} (h1 : lo ≤ q) (h2 : q ≤ hi)
    (e1 : round2 lo = lo) (e2 : round2 hi = hi) :
    lo ≤ round2 q ∧ round2 q ≤ hi :=
⟨e1 ▸ round2_mono h1, e2 ▸ round2_mono h2⟩

/-! ### Lemmas about clamp -/

theorem le_clamp (v lo hi : ℚ) : lo ≤ clamp v lo hi := le_max_left _ _

theorem clamp_le {lo hi : ℚ} (v : ℚ) (h : lo ≤ hi) : clamp v lo hi ≤ hi :=
max_le h (min_le_left _ _)

/-! ### Stability of the descending sort

A stable sort keeps, for every key value `s`, the sublist of records
whose key equals `s` in input order.  The next lemmas show this for
`List.insertionSort dangerGE`, which therefore computes exactly what
Python's stable `list.sort(key=..., reverse=True)` computes. -/

theorem orderedInsert_filter_eq (s : ℚ) (x : DangerRecord)
    (hx : x.danger_score = s) (l : List DangerRecord) :
    (List.orderedInsert dangerGE x l).filter (fun r => decide (r.danger_score = s)) =
      x :: l.filter (fun r => decide (r.danger_score = s)) := by
induction l with
| nil => simp [List.orderedInsert, hx]
| cons y ys ih =>
  by_cases hxy : dangerGE x y
  · rw [List.orderedInsert, if_pos hxy, List.filter_cons, if_pos (by simp [hx])]
  · have hy : ¬ y.danger_score = s := by
      intro hys
      apply hxy
      show y.danger_score ≤ x.danger_score
      rw [hys, hx]
    rw [List.orderedInsert, if_neg hxy, List.filter_cons, if_neg (by simp [hy]),
      ih, List.filter_cons, if_neg (by simp [hy])]

theorem orderedInsert_filter_ne (s : ℚ) (x : DangerRecord)
    (hx : ¬ x.danger_score = s) (l : List DangerRecord) :
    (List.orderedInsert dangerGE x l).filter (fun r => decide (r.danger_score = s)) =
      l.filter (fun r => decide (r.danger_score = s)) := by
induction l with
| nil => simp [List.orderedInsert, hx]
| cons y ys ih =>
  by_cases hxy : dangerGE x y
  · rw [List.orderedInsert, if_pos hxy, List.filter_cons, if_neg (by simp [hx])]
  · rw [List.orderedInsert, if_neg hxy, List.filter_cons, ih, List.filter_cons]

theorem insertionSort_filter (s : ℚ) (l : List DangerRecord) :
    (List.insertionSort dangerGE l).filter (fun r => decide (r.danger_score = s)) =
      l.filter (fun r => decide (r.danger_score = s)) := by
induction l with
| nil => rfl
| cons x xs ih =>
  rw [List.insertionSort]
  by_cases hx : x.danger_score = s
  · rw [orderedInsert_filter_eq s x hx, ih, List.filter_cons, if_pos (by simp [hx])]
  · rw [orderedInsert_filter_ne s x hx, ih, List.filter_cons, if_neg (by simp [hx])]

/-! ### Lemmas about date serialization -/

theorem digitVal?_digitChar {k : ℕ} (h : k < 10) :
    digitVal? (Nat.digitChar k) = some k := by
interval_cases k <;> decide

theorem pad4_parse {y : ℕ} (hy : y < 10000) :
    1000 * (y / 1000 % 10) + 100 * (y / 100 % 10) + 10 * (y / 10 % 10) + y % 10
      = y := by omega

theorem pad2_parse {m : ℕ} (hm : m < 100) : 10 * (m / 10 % 10) + m % 10 = m := by
omega

theorem daysInMonth_le_31 (y m : ℕ) : daysInMonth y m ≤ 31 := by
unfold daysInMonth
split_ifs <;> omega

theorem parse_isoformat {d : CalDate} (h : d.Valid) :
    parse_date d.isoformat = some d := by
have hb := h
unfold CalDate.Valid validDate at hb
simp only [Bool.and_eq_true, decide_eq_true_eq] at hb
obtain ⟨⟨⟨⟨⟨hy1, hy2⟩, hm1⟩, hm2⟩, hd1⟩, hd2⟩ := hb
have hy : d.year < 10000 := by omega
have hm : d.month < 100 := by omega
have hd : d.day < 100 := by
  have := daysInMonth_le_31 d.year d.month
  omega
have e1 : digitVal? (Nat.digitChar (d.year / 1000 % 10)) = some (d.year / 1000 % 10) :=
  digitVal?_digitChar (Nat.mod_lt _ (by norm_num))
have e2 : digitVal? (Nat.digitChar (d.year / 100 % 10)) = some (d.year / 100 % 10) :=
  digitVal?_digitChar (Nat.mod_lt _ (by norm_num))
have e3 : digitVal? (Nat.digitChar (d.year / 10 % 10)) = some (d.year / 10 % 10) :=
  digitVal?_digitChar (Nat.mod_lt _ (by norm_num))
have e4 : digitVal? (Nat.digitChar (d.year % 10)) = some (d.year % 10) :=
  digitVal?_digitChar (Nat.mod_lt _ (by norm_num))
have e5 : digitVal? (Nat.digitChar (d.month / 10 % 10)) = some (d.month / 10 % 10) :=
  digitVal?_digitChar (Nat.mod_lt _ (by norm_num))
have e6 : digitVal? (Nat.digitChar (d.month % 10)) = some (d.month % 10) :=
  digitVal?_digitChar (Nat.mod_lt _ (by norm_num))
have e7 : digitVal? (Nat.digitChar (d.day / 10 % 10)) = some (d.day / 10 % 10) :=
  digitVal?_digitChar (Nat.mod_lt _ (by norm_num))
have e8 : digitVal? (Nat.digitChar (d.day % 10)) = some (d.day % 10) :=
  digitVal?_digitChar (Nat.mod_lt _ (by norm_num))
simp only [CalDate.isoformat, pad4, pad2, List.cons_append, List.nil_append,
  parse_date, e1, e2, e3, e4, e5, e6, e7, e8, Option.bind_eq_bind,
  Option.some_bind, and_self, if_true]
rw [pad4_parse hy, pad2_parse hm, pad2_parse hd]
have hv : validDate d.year d.month d.day = true := h
rw [if_pos hv]

/-! ### Lemmas about the workload accumulation -/

/-- The per-assignment contribution to a day's total, as the spec
describes it: `estimated_hours / max(1, days_until_due_from_that_day)`
for non-overdue assignments, nothing otherwise. -/
def day_contribution (today : CalDate) (i : ℕ) (a : Assignment) : ℚ :=
if days_until a.due_date today - (i : ℤ) < 0 then 0
else a.estimated_hours / ((max 1 (days_until a.due_date today - (i : ℤ))) : ℚ)

/-- The breakdown entry an assignment produces on a given day, if any. -/
def day_entry (today : CalDate) (i : ℕ) (a : Assignment) : Option BreakdownEntry :=
if days_until a.due_date today - (i : ℤ) < 0 then none
else some
  { name := a.name
    daily_hours :=
      round2 (a.estimated_hours / ((max 1 (days_until a.due_date today - (i : ℤ))) : ℚ))
    due_ordinal := a.due_date.toOrdinal }

theorem workload_foldl (today : CalDate) (i : ℕ) (l : List Assignment)
    (t : ℚ) (bs : List BreakdownEntry) :
    l.foldl (workload_step today i) (t, bs) =
      (t + (l.map (day_contribution today i)).sum,
       bs ++ l.filterMap (day_entry today i)) := by
induction l generalizing t bs with
| nil => simp
| cons a l ih =>
  rw [List.foldl_cons]
  by_cases h : days_until a.due_date today - (i : ℤ) < 0
  · rw [show workload_step today i (t, bs) a = (t, bs) by
      simp [workload_step, h]]
    rw [ih]
    simp [day_contribution, day_entry, h]
  · rw [show workload_step today i (t, bs) a =
        (t + a.estimated_hours / ((max 1 (days_until a.due_date today - (i : ℤ))) : ℚ),
         bs ++ [{ name := a.name
                  daily_hours := round2
                    (a.estimated_hours /
                      ((max 1 (days_until a.due_date today - (i : ℤ))) : ℚ))
                  due_ordinal := a.due_date.toOrdinal }]) by
      simp [workload_step, h]]
    rw [ih]
    simp [day_contribution, day_entry, h, add_assoc]

/-! ### Spec-side quantities and concrete inputs used in the claims -/

/-- The unrounded blended risk value of `calc_risk`, spelled as the spec
writes it: `0.4·soon + 0.4·weight_scaled + 0.2·doubt`. -/
def risk_raw (a : Assignment) (today : CalDate) : ℚ :=
0.4 * soon_bucket (days_until a.due_date today)
+ 0.4 * (clamp a.weight_percent 0 100 / 10)
+ 0.2 * (6 - clamp (a.confidence : ℚ) 1 5)

/-- Reference date 2024-01-01 used in concrete instances. -/
def refToday : CalDate := ⟨2024, 1, 1⟩

/-- Due in 10 days from `refToday`, weight 22.25, confidence 1: its
blended risk value is exactly 3.49. -/
def exRiskA : Assignment := ⟨"hw", 22.25, ⟨2024, 1, 11⟩, 1, 5⟩

/-- Due in 3 days from `refToday` with 10 estimated hours: requires
10/3 hours per day, which does not survive 2-decimal rounding. -/
def exThird : Assignment := ⟨"lab", 30, ⟨2024, 1, 4⟩, 3, 10⟩

/-- Overdue relative to `refToday`. -/
def exOverdue : Assignment := ⟨"late", 30, ⟨2023, 12, 31⟩, 3, 2⟩

/-- Due in 10 days from `refToday`, needing 30 hours: the instance of
the spec's `start_by_date` testable property. -/
def exStartBy : Assignment := ⟨"essay", 30, ⟨2024, 1, 11⟩, 3, 30⟩

/-- Due on `refToday` itself with 4 estimated hours. -/
def exDueToday : Assignment := ⟨"quiz", 30, refToday, 3, 4⟩

/-- Due in 3 days from `refToday` with 6 estimated hours: 2 hours/day. -/
def exEven : Assignment := ⟨"reading", 30, ⟨2024, 1, 4⟩, 3, 6⟩

/-- Weight 10, confidence 3: with current grade 85.125 the exact
projected grade 84.9125 does not survive 2-decimal rounding. -/
def exGpa : Assignment := ⟨"pset", 10, ⟨2024, 1, 11⟩, 3, 5⟩

/-- Weight 20, confidence 1: the spec's GPA-impact example. -/
def exGpaBig : Assignment := ⟨"midterm", 20, ⟨2024, 1, 11⟩, 1, 5⟩

/-- A well-formed assignment for the serialization round-trip. -/
def exRound : Assignment := ⟨"final", 25.5, ⟨2023, 2, 28⟩, 4, 12.25⟩

/-! ### C1 -/

/-- C1: `calc_risk` returns `days_left = due_date − today`, the soon
bucket is 10/8/6/4/2 for `days_left ≤1/≤3/≤7/≤14/otherwise`,
`risk_score = round(0.4·soon + 0.4·weight_scaled + 0.2·doubt, 2)` lies
in [0,10], and the risk label is "Low" below 3.5, "Medium" below 5.5,
"High" otherwise (3.49→Low, 3.5→Medium, 5.49→Medium, 5.5→High). -/
theorem calc_risk_spec (a : Assignment) (today : CalDate) :
    (calc_risk a today).days_left = days_until a.due_date today
    ∧ (days_until a.due_date today ≤ 1 →
        soon_bucket (days_until a.due_date today) = 10)
    ∧ (1 < days_until a.due_date today → days_until a.due_date today ≤ 3 →
        soon_bucket (days_until a.due_date today) = 8)
    ∧ (3 < days_until a.due_date today → days_until a.due_date today ≤ 7 →
        soon_bucket (days_until a.due_date today) = 6)
    ∧ (7 < days_until a.due_date today → days_until a.due_date today ≤ 14 →
        soon_bucket (days_until a.due_date today) = 4)
    ∧ (14 < days_until a.due_date today →
        soon_bucket (days_until a.due_date today) = 2)
    ∧ (calc_risk a today).risk_score = round2 (risk_raw a today)
    ∧ 0 ≤ (calc_risk a today).risk_score
    ∧ (calc_risk a today).risk_score ≤ 10
    ∧ (calc_risk a today).risk_label = risk_label_of (risk_raw a today)
    ∧ (risk_raw a today < 3.5 → (calc_risk a today).risk_label = "Low")
    ∧ (3.5 ≤ risk_raw a today → risk_raw a today < 5.5 →
        (calc_risk a today).risk_label = "Medium")
    ∧ (5.5 ≤ risk_raw a today → (calc_risk a today).risk_label = "High")
    ∧ risk_label_of 3.49 = "Low" ∧ risk_label_of 3.5 = "Medium"
    ∧ risk_label_of 5.49 = "Medium" ∧ risk_label_of 5.5 = "High" := by
have hsoon : 2 ≤ soon_bucket (days_until a.due_date today)
    ∧ soon_bucket (days_until a.due_date today) ≤ 10 := by
  unfold soon_bucket
  split_ifs <;> norm_num
have hw0 : (0 : ℚ) ≤ clamp a.weight_percent 0 100 := le_clamp _ _ _
have hw1 : clamp a.weight_percent 0 100 ≤ 100 := clamp_le _ (by norm_num)
have hc1 : (1 : ℚ) ≤ clamp (a.confidence : ℚ) 1 5 := le_clamp _ _ _
have hc5 : clamp (a.confidence : ℚ) 1 5 ≤ 5 := clamp_le _ (by norm_num)
have hraw0 : (0 : ℚ) ≤ risk_raw a today := by
  unfold risk_raw
  linarith [hsoon.1]
have hraw10 : risk_raw a today ≤ 10 := by
  unfold risk_raw
  linarith [hsoon.2]
have hbounds := round2_bounds hraw0 hraw10 (by with_unfolding_all decide)
  (by with_unfolding_all decide)
refine ⟨rfl, ?_, ?_, ?_, ?_, ?_, rfl, hbounds.1, hbounds.2, rfl, ?_, ?_, ?_,
  by with_unfolding_all decide, by with_unfolding_all decide,
  by with_unfolding_all decide, by with_unfolding_all decide⟩
· intro h
  rw [soon_bucket, if_pos h]
· intro h1 h2
  rw [soon_bucket, if_neg (by omega), if_pos h2]
· intro h1 h2
  rw [soon_bucket, if_neg (by omega), if_neg (by omega), if_pos h2]
· intro h1 h2
  rw [soon_bucket, if_neg (by omega), if_neg (by omega), if_neg (by omega),
    if_pos h2]
· intro h1
  rw [soon_bucket, if_neg (by omega), if_neg (by omega), if_neg (by omega),
    if_neg (by omega)]
· intro h
  show risk_label_of (risk_raw a today) = "Low"
  rw [risk_label_of, if_pos h]
· intro h1 h2
  show risk_label_of (risk_raw a today) = "Medium"
  rw [risk_label_of, if_neg (by linarith), if_pos h2]
· intro h1
  show risk_label_of (risk_raw a today) = "High"
  rw [risk_label_of, if_neg (by linarith), if_neg (by linarith)]

/-- C1 witness: a concrete assignment 10 days out with blended risk
exactly 3.49, labelled "Low". -/
theorem calc_risk_spec_witness :
    (7 < days_until exRiskA.due_date refToday
      ∧ days_until exRiskA.due_date refToday ≤ 14
      ∧ soon_bucket (days_until exRiskA.due_date refToday) = 4)
    ∧ (risk_raw exRiskA refToday < 3.5
      ∧ (calc_risk exRiskA refToday).risk_label = "Low") := by
have h := calc_risk_spec exRiskA refToday
exact ⟨⟨by decide, by decide, h.2.2.2.2.1 (by decide) (by decide)⟩,
  ⟨by with_unfolding_all decide,
   h.2.2.2.2.2.2.2.2.2.2.1 (by with_unfolding_all decide)⟩⟩

/-! ### C2 -/

/-- C2 counterexample: the claim says the non-overdue branch returns
`hours_per_day = estimated_hours / max(1, days_left − start_delay_days)`,
but the returned field is that quotient rounded to 2 decimals; at
10 estimated hours over 3 days the code returns 3.33, not 10/3. -/
theorem calc_urgency_claim_counterexample :
    ¬ ((calc_urgency exThird refToday 0).hours_per_day =
      some (exThird.estimated_hours /
        (((max 1 (days_until exThird.due_date refToday - 0) : ℤ)) : ℚ))) := by
with_unfolding_all decide

/-- C2 (amended): `calc_urgency` returns the `None` sentinel and zone
"Overdue" iff `days_left − start_delay_days` is negative; otherwise it
returns `hours_per_day = round(estimated_hours / max(1, days_left −
start_delay_days), 2)` with the zone bucketed from the unrounded
quotient: ≤1 → Safe, ≤2.5 → Steady, ≤4 → Crunch Zone, else Panic. -/
theorem calc_urgency_spec (a : Assignment) (today : CalDate)
    (start_delay_days : ℤ) :
    ((calc_urgency a today start_delay_days).hours_per_day = none ↔
      days_until a.due_date today - start_delay_days < 0)
    ∧ ((calc_urgency a today start_delay_days).zone = "Overdue" ↔
      days_until a.due_date today - start_delay_days < 0)
    ∧ (calc_urgency a today start_delay_days).days_left_after_delay =
        days_until a.due_date today - start_delay_days
    ∧ (calc_urgency a today start_delay_days).start_delay_days =
        start_delay_days
    ∧ (0 ≤ days_until a.due_date today - start_delay_days →
        (calc_urgency a today start_delay_days).hours_per_day =
          some (round2 (a.estimated_hours /
            (((max 1 (days_until a.due_date today - start_delay_days) : ℤ)) : ℚ)))
        ∧ (calc_urgency a today start_delay_days).zone =
            urgency_zone (a.estimated_hours /
              (((max 1 (days_until a.due_date today - start_delay_days) : ℤ)) : ℚ)))
    ∧ (∀ q : ℚ, q ≤ 1 → urgency_zone q = "Safe")
    ∧ (∀ q : ℚ, 1 < q → q ≤ 2.5 → urgency_zone q = "Steady")
    ∧ (∀ q : ℚ, 2.5 < q → q ≤ 4 → urgency_zone q = "Crunch Zone")
    ∧ (∀ q : ℚ, 4 < q → urgency_zone q = "Panic Zone") := by
have hz1 : ∀ q : ℚ, q ≤ 1 → urgency_zone q = "Safe" := by
  intro q h
  rw [urgency_zone, if_pos h]
have hz2 : ∀ q : ℚ, 1 < q → q ≤ 2.5 → urgency_zone q = "Steady" := by
  intro q h1 h2
  rw [urgency_zone, if_neg (by linarith), if_pos h2]
have hz3 : ∀ q : ℚ, 2.5 < q → q ≤ 4 → urgency_zone q = "Crunch Zone" := by
  intro q h1 h2
  rw [urgency_zone, if_neg (by linarith), if_neg (by linarith), if_pos h2]
have hz4 : ∀ q : ℚ, 4 < q → urgency_zone q = "Panic Zone" := by
  intro q h1
  rw [urgency_zone, if_neg (by linarith), if_neg (by linarith),
    if_neg (by linarith)]
have hzo : ∀ q : ℚ, urgency_zone q ≠ "Overdue" := by
  intro q
  unfold urgency_zone
  split_ifs <;> decide
by_cases h : days_until a.due_date today - start_delay_days < 0
· rw [show calc_urgency a today start_delay_days =
      { name := a.name
        start_delay_days := start_delay_days
        days_left_after_delay := days_until a.due_date today - start_delay_days
        hours_per_day := none
        zone := "Overdue" } by rw [calc_urgency, if_pos h]]
  exact ⟨by simpa using h, by simpa using h, rfl, rfl,
    fun h0 => absurd h (by omega), hz1, hz2, hz3, hz4⟩
· rw [show calc_urgency a today start_delay_days =
      { name := a.name
        start_delay_days := start_delay_days
        days_left_after_delay := days_until a.due_date today - start_delay_days
        hours_per_day := some (round2 (a.estimated_hours /
          (((max 1 (days_until a.due_date today - start_delay_days) : ℤ)) : ℚ)))
        zone := urgency_zone (a.estimated_hours /
          (((max 1 (days_until a.due_date today - start_delay_days) : ℤ)) : ℚ)) }
      by rw [calc_urgency, if_neg h]]
  exact ⟨iff_of_false (by simp) h, iff_of_false (hzo _) h, rfl, rfl,
    fun _ => ⟨rfl, rfl⟩, hz1, hz2, hz3, hz4⟩

/-- C2 witness: a concrete non-overdue assignment, its returned record
matching the amended formulas. -/
theorem calc_urgency_spec_witness :
    (0 : ℤ) ≤ days_until exThird.due_date refToday - 0
    ∧ ((calc_urgency exThird refToday 0).hours_per_day =
        some (round2 (exThird.estimated_hours /
          (((max 1 (days_until exThird.due_date refToday - 0) : ℤ)) : ℚ)))
      ∧ (calc_urgency exThird refToday 0).zone =
          urgency_zone (exThird.estimated_hours /
            (((max 1 (days_until exThird.due_date refToday - 0) : ℤ)) : ℚ))) :=
⟨by decide, (calc_urgency_spec exThird refToday 0).2.2.2.2.1 (by decide)⟩

/-! ### C3 -/

/-- C3: `danger_score` equals `round(0.7·risk_score + 0.3·urgency_scaled, 2)`
where `urgency_scaled` is 10.0 for the overdue `None` sentinel and
`min(5.0, hours_per_day)·2.0` otherwise. -/
theorem danger_score_spec (a : Assignment) (today : CalDate) :
    (danger_score a today =
      round2 (0.7 * (calc_risk a today).risk_score +
        0.3 * (match (calc_urgency a today 0).hours_per_day with
               | none => (10 : ℚ)
               | some h => min 5 h * 2)))
    ∧ ((calc_urgency a today 0).hours_per_day = none →
        danger_score a today =
          round2 (0.7 * (calc_risk a today).risk_score + 0.3 * 10))
    ∧ (∀ h : ℚ, (calc_urgency a today 0).hours_per_day = some h →
        danger_score a today =
          round2 (0.7 * (calc_risk a today).risk_score + 0.3 * (min 5 h * 2))) := by
refine ⟨?_, ?_, ?_⟩
· unfold danger_score danger_combine urgency_scaled_of
  cases (calc_urgency a today 0).hours_per_day <;> rfl
· intro h
  unfold danger_score danger_combine urgency_scaled_of
  rw [h]
· intro q hq
  unfold danger_score danger_combine urgency_scaled_of
  rw [hq]

/-- C3 witness: an overdue assignment, whose urgency contribution is the
maximal 10.0. -/
theorem danger_score_spec_witness :
    (calc_urgency exOverdue refToday 0).hours_per_day = none
    ∧ danger_score exOverdue refToday =
        round2 (0.7 * (calc_risk exOverdue refToday).risk_score + 0.3 * 10) :=
⟨by decide, (danger_score_spec exOverdue refToday).2.1 (by decide)⟩

/-! ### C4 -/

/-- C4: `rank_assignments_by_danger` returns one record per input
assignment (a permutation of the per-assignment records), sorted
descending by `danger_score`, and for every score value the records
carrying it stay in input order (stability). -/
theorem rank_by_danger_spec (assignments : List Assignment) (today : CalDate) :
    List.Perm (rank_assignments_by_danger assignments today)
      (assignments.map (fun a => danger_record a today))
    ∧ List.Sorted (fun x y => y.danger_score ≤ x.danger_score)
        (rank_assignments_by_danger assignments today)
    ∧ ∀ s : ℚ,
        (rank_assignments_by_danger assignments today).filter
            (fun r => decide (r.danger_score = s)) =
          (assignments.map (fun a => danger_record a today)).filter
            (fun r => decide (r.danger_score = s)) :=
⟨List.perm_insertionSort dangerGE _,
 List.sorted_insertionSort dangerGE _,
 fun s => insertionSort_filter s _⟩

/-! ### C5 -/

/-- C5 counterexample: for the assignment due in 10 days needing 30
hours with threshold 2.5, the required pace at delay `start_by_days` is
30/10 = 3.0 > 2.5, so the claimed "≤ threshold at start_by_days"
boundary property is false for this instance (the scan exceeds the
threshold already at delay 0 and the safe start clamps to 0). -/
theorem start_by_claim_counterexample :
    ¬ ((start_by_date exStartBy refToday 2.5).start_by_days < 10
      ∧ 2.5 < exStartBy.estimated_hours /
          (((max 1 (days_until exStartBy.due_date refToday -
            ((start_by_date exStartBy refToday 2.5).start_by_days + 1)) : ℤ)) : ℚ)
      ∧ exStartBy.estimated_hours /
          (((max 1 (days_until exStartBy.due_date refToday -
            (start_by_date exStartBy refToday 2.5).start_by_days) : ℤ)) : ℚ)
          ≤ 2.5) := by
with_unfolding_all decide

/-- C5 (amended): for that assignment `start_by_date` returns
`start_by_days = 0 < 10`; the pace at delay `start_by_days + 1` is
30/9 > 2.5, but the pace at delay `start_by_days` itself is 3.0, which
already exceeds 2.5: the threshold is crossed at delay 0, so the safe
start is `max(0, 0 − 1) = 0` and the "≤ threshold" half of the boundary
property does not hold here. -/
theorem start_by_spec_amended :
    (start_by_date exStartBy refToday 2.5).start_by_days = 0
    ∧ (start_by_date exStartBy refToday 2.5).start_by_days < 10
    ∧ 2.5 < exStartBy.estimated_hours /
        (((max 1 (days_until exStartBy.due_date refToday -
          ((start_by_date exStartBy refToday 2.5).start_by_days + 1)) : ℤ)) : ℚ)
    ∧ exStartBy.estimated_hours /
        (((max 1 (days_until exStartBy.due_date refToday -
          (start_by_date exStartBy refToday 2.5).start_by_days) : ℤ)) : ℚ) = 3
    ∧ ¬ (exStartBy.estimated_hours /
        (((max 1 (days_until exStartBy.due_date refToday -
          (start_by_date exStartBy refToday 2.5).start_by_days) : ℤ)) : ℚ)
        ≤ 2.5) := by
with_unfolding_all decide

/-! ### C6 -/

/-- C6 counterexample: due today with 4 estimated hours gives
`hours_per_day = 4.0`, but the zone is not "Panic Zone": 4.0 falls in
the `≤ 4` "Crunch Zone" bucket. -/
theorem urgency_due_today_counterexample :
    (calc_urgency exDueToday refToday 0).hours_per_day = some 4
    ∧ (calc_urgency exDueToday refToday 0).zone ≠ "Panic Zone" := by
with_unfolding_all decide

/-- C6 (amended): with due date = today and estimated_hours = 4,
`calc_urgency` at delay 0 clamps `effective_days` to 1 and returns
`hours_per_day = 4.0` with zone "Crunch Zone" (the Panic Zone starts
strictly above 4). -/
theorem urgency_due_today_amended :
    (calc_urgency exDueToday refToday 0).days_left_after_delay = 0
    ∧ (calc_urgency exDueToday refToday 0).hours_per_day = some 4
    ∧ (calc_urgency exDueToday refToday 0).zone = "Crunch Zone" := by
with_unfolding_all decide

/-! ### C7 -/

/-- C7 counterexample: the claim says each non-overdue assignment
contributes `estimated_hours / max(1, days_until_due)` to the day's
`total_hours`, but the reported `total_hours` is the rounded sum: with
one assignment of 10 hours due in 3 days, day 0 reports 3.33, not 10/3. -/
theorem workload_claim_counterexample :
    (workload_projection [exThird] refToday 1).map (fun d => d.total_hours) ≠
      [exThird.estimated_hours /
        (((max 1 (days_until exThird.due_date refToday - 0) : ℤ)) : ℚ)] := by
with_unfolding_all decide

/-- C7 (amended): `workload_projection` returns one entry per day offset
`i ∈ [0, days)`, dated `today + i`; its `total_hours` is the 2-decimal
rounding of the sum, over the assignments whose days-until-due from that
day is non-negative, of `estimated_hours / max(1, days_until_due)`
(additive across assignments), with one breakdown entry per contributing
assignment. -/
theorem workload_projection_spec (assignments : List Assignment)
    (today : CalDate) (days : ℕ) :
    (workload_projection assignments today days).length = days
    ∧ ∀ i : ℕ, i < days →
        (workload_projection assignments today days)[i]? =
          some { date_ordinal := today.toOrdinal + (i : ℤ)
                 total_hours :=
                   round2 ((assignments.map (day_contribution today i)).sum)
                 breakdown := assignments.filterMap (day_entry today i) } := by
constructor
· simp [workload_projection]
· intro i hi
  unfold workload_projection
  rw [List.getElem?_map, List.getElem?_range hi, Option.map_some']
  rw [workload_foldl today i assignments 0 []]
  simp

/-- C7 witness: one assignment with 6 estimated hours due in 3 days
contributes 6/3 = 2.0 hours on day 0. -/
theorem workload_projection_spec_witness :
    (0 < 1
      ∧ (workload_projection [exEven] refToday 1)[(0 : ℕ)]? =
        some { date_ordinal := refToday.toOrdinal + ((0 : ℕ) : ℤ)
               total_hours :=
                 round2 (([exEven].map (day_contribution refToday 0)).sum)
               breakdown := [exEven].filterMap (day_entry refToday 0) })
    ∧ round2 (([exEven].map (day_contribution refToday 0)).sum) = 2 :=
⟨⟨by decide, (workload_projection_spec [exEven] refToday 1).2 0 (by decide)⟩,
 by with_unfolding_all decide⟩

/-! ### C8 -/

/-- C8 counterexample: the claim says
`new_grade = clamp(current_grade)·(1−w) + clamp(predicted_score)·w`
exactly, but the code rounds the projected grade to 2 decimals: with
current grade 85.125, weight 10 and confidence 3 the exact value is
84.9125 while the code returns 84.91. -/
theorem gpa_claim_counterexample :
    (gpa_impact_estimate exGpa 85.125 none).projected_grade ≠
      clamp 85.125 0 100 * (1 - clamp (exGpa.weight_percent / 100) 0 1)
      + clamp (expected_score_from_confidence exGpa.confidence) 0 100
        * clamp (exGpa.weight_percent / 100) 0 1 := by
with_unfolding_all decide

/-- C8 (amended): `gpa_impact_estimate` uses the confidence table
1→65, 2→75, 3→83, 4→90, 5→96 (83 out of range); computes
`new_grade = round(clamp(cg,0,100)·(1−w) + clamp(ps,0,100)·w, 2)` with
`w = clamp(weight/100,0,1)` and `delta = round(new_grade − cg, 2)` (both
rounded to 2 decimals); `drop_risk` iff weight ≥ 20 and confidence ≤ 2;
and the 85/20/1 example gives 81.0, −4.0, "Big", drop_risk. -/
theorem gpa_impact_spec (a : Assignment) (current_grade : ℚ) :
    expected_score_from_confidence 1 = 65
    ∧ expected_score_from_confidence 2 = 75
    ∧ expected_score_from_confidence 3 = 83
    ∧ expected_score_from_confidence 4 = 90
    ∧ expected_score_from_confidence 5 = 96
    ∧ (∀ c : ℤ, c < 1 ∨ 5 < c → expected_score_from_confidence c = 83)
    ∧ (gpa_impact_estimate a current_grade none).projected_grade =
        round2 (clamp current_grade 0 100
          * (1 - clamp (a.weight_percent / 100) 0 1)
          + clamp (expected_score_from_confidence a.confidence) 0 100
            * clamp (a.weight_percent / 100) 0 1)
    ∧ (gpa_impact_estimate a current_grade none).delta_points =
        round2 ((gpa_impact_estimate a current_grade none).projected_grade
          - current_grade)
    ∧ ((gpa_impact_estimate a current_grade none).drop_risk = true ↔
        20 ≤ a.weight_percent ∧ a.confidence ≤ 2)
    ∧ (gpa_impact_estimate exGpaBig 85 none).projected_grade = 81
    ∧ (gpa_impact_estimate exGpaBig 85 none).delta_points = -4
    ∧ (gpa_impact_estimate exGpaBig 85 none).severity = "Big"
    ∧ (gpa_impact_estimate exGpaBig 85 none).drop_risk = true := by
refine ⟨rfl, rfl, rfl, rfl, rfl, ?_, rfl, rfl, ?_,
  by with_unfolding_all decide, by with_unfolding_all decide,
  by with_unfolding_all decide, by with_unfolding_all decide⟩
· intro c hc
  have h1 : ¬ c = 1 := by omega
  have h2 : ¬ c = 2 := by omega
  have h3 : ¬ c = 3 := by omega
  have h4 : ¬ c = 4 := by omega
  have h5 : ¬ c = 5 := by omega
  simp [expected_score_from_confidence, h1, h2, h3, h4, h5]
· simp [gpa_impact_estimate, Bool.and_eq_true, decide_eq_true_eq]

/-- C8 witness: an out-of-range confidence falls back to 83. -/
theorem gpa_impact_spec_witness :
    ((0 : ℤ) < 1 ∨ 5 < (0 : ℤ)) ∧ expected_score_from_confidence 0 = 83 :=
⟨Or.inl (by decide),
 (gpa_impact_spec exGpa 85).2.2.2.2.2.1 0 (Or.inl (by decide))⟩

/-! ### C9 -/

/-- C9: the danger blend `round(0.7·risk + 0.3·urgency_scaled, 2)` is
monotone non-decreasing in each argument with the other held fixed,
through the final 2-decimal rounding. -/
theorem danger_combine_monotone :
    (∀ r1 r2 u : ℚ, r1 ≤ r2 → danger_combine r1 u ≤ danger_combine r2 u)
    ∧ (∀ u1 u2 r : ℚ, u1 ≤ u2 → danger_combine r u1 ≤ danger_combine r u2) := by
constructor
· intro r1 r2 u h
  unfold danger_combine
  exact round2_mono (by linarith)
· intro u1 u2 r h
  unfold danger_combine
  exact round2_mono (by linarith)

/-- C9 witness: monotonicity instantiated in both arguments. -/
theorem danger_combine_monotone_witness :
    ((1 : ℚ) ≤ 2 ∧ danger_combine 1 7 ≤ danger_combine 2 7)
    ∧ ((3 : ℚ) ≤ 4 ∧ danger_combine 6 3 ≤ danger_combine 6 4) :=
⟨⟨by norm_num, danger_combine_monotone.1 1 2 7 (by norm_num)⟩,
 ⟨by norm_num, danger_combine_monotone.2 3 4 6 (by norm_num)⟩⟩

/-! ### C10 -/

/-- C10: for every assignment whose due date is a valid calendar date,
serializing with `assignment_to_dict` (due date as an ISO "YYYY-MM-DD"
string) and parsing back with `assignment_from_dict` is lossless. -/
theorem assignment_roundtrip (a : Assignment) (h : a.due_date.Valid) :
    assignment_from_dict (assignment_to_dict a) = some a := by
unfold assignment_from_dict assignment_to_dict
rw [parse_isoformat h]
rfl

/-- C10 witness: a concrete assignment with a non-trivial date
round-trips to itself. -/
theorem assignment_roundtrip_witness :
    exRound.due_date.Valid
    ∧ assignment_from_dict (assignment_to_dict exRound) = some exRound :=
⟨by decide, assignment_roundtrip exRound (by decide)⟩

end Engine
